import Mathlib

/-!
Verification of the test-execution and result-tracking core of
src/pytest_gui_runner.py (Cybertest pytest runner).

The embedding models, directly from the source:
  - run_pytest                (lines 23-52): command construction and the
                              subprocess call, with the OS spawn outcome
                              injected as a function argument;
  - PytestGUI._parse_test_summary (lines 641-689): the line-oriented
                              summary parser built on re.finditer;
  - PytestGUI._add_run_to_history (lines 691-732): OK/ISSUE status,
                              the history entry, and the last-5 bound;
  - PytestGUI._on_history_select  (lines 734-758): display-order index
                              translation into the newest-last list;
  - PytestGUI.run_tests       (lines 809-864): the banner / stdout block /
                              stderr block / exit-code line assembly and the
                              full-output snapshot taken for the history.

Strings are modelled by Lean String (ASCII-faithful to Python str for the
literals involved); Python ints by Int where they can be negative (process
exit codes) and by Nat for the non-negative counters.  External effects
(subprocess spawn, wall clock, the Tk widgets) are passed in as explicit
arguments; the Tk text widget is modelled by the string of everything
inserted into it, and Text.get("1.0", END) by that string plus the trailing
newline Tk always appends.
-/

/-- Outcome of the one OS call `subprocess.run(...)`: either the child
process completed with captured stdout, stderr and return code, or the
attempt raised an exception carrying a message. -/
inductive SpawnOutcome where
  | completed (stdout stderr : String) (returncode : Int)
  | raised (exc : String)
deriving DecidableEq, Repr

/-- The argument record handed to `subprocess.run` in run_pytest
(src lines 42-47): the argument vector plus the keyword options
`capture_output=True, text=True, shell=False`. -/
structure SubprocessCall where
  args : List String
  capture_output : Bool
  text : Bool
  shell : Bool
deriving DecidableEq, Repr

/-- Python str.lower, ASCII-faithful (all literals compared against it
here are ASCII): lowercase every character. -/
def str_lower (s : String) : String := ⟨s.data.map Char.toLower⟩

/-- Command construction of run_pytest (src lines 35-40):
start from `[sys.executable, "-m", "pytest"]`, append the flag when it is
truthy (non-None, non-empty) and its lowercase form differs from the
sentinel "normal", then append the target path. -/
def pytest_cmd (executable : String) (flag : Option String) (target_path : String) :
    List String :=
  let base := [executable, "-m", "pytest"]
  let withFlag :=
    match flag with
    | some f => if f ≠ "" ∧ str_lower f ≠ "normal" then base ++ [f] else base
    | none => base
  withFlag ++ [target_path]

/-- The exact subprocess invocation run_pytest performs (src lines 42-47). -/
def pytest_invocation (executable : String) (flag : Option String)
    (target_path : String) : SubprocessCall :=
  { args := pytest_cmd executable flag target_path,
    capture_output := true, text := true, shell := false }

/-- run_pytest (src lines 23-52).  The whole body sits inside
`try ... except Exception`, so a raised spawn turns into the synthetic
result `("", "Unexpected error running pytest: <exc>", 1)`.  The OS is
injected as `spawn`; `is_directory` is accepted and ignored exactly as in
the source. -/
def run_pytest (spawn : SubprocessCall → SpawnOutcome) (executable : String)
    (target_path : String) (is_directory : Bool) (flag : Option String) :
    String × String × Int :=
  match spawn (pytest_invocation executable flag target_path) with
  | .completed stdout stderr returncode => (stdout, stderr, returncode)
  | .raised exc => ("", "Unexpected error running pytest: " ++ exc, 1)

/-! ## Summary parser (src lines 641-689) -/

/-- The five summary counters; mirrors the tests_passed .. tests_total
fields of PytestGUI (src lines 679-683), with
`total = passed + failed + errors + skipped` (src line 677). -/
structure SummaryCounts where
  passed : Nat
  failed : Nat
  errors : Nat
  skipped : Nat
  total : Nat
deriving DecidableEq, Repr

/-- Python `int(...)` on the digit group captured by `(\d+)`. -/
def digits_to_nat (ds : List Char) : Nat :=
  ds.foldl (fun n c => 10 * n + (c.toNat - '0'.toNat)) 0

/-- One attempt of the regex `(\d+)\s+<key>` anchored at the start of `s`.
Backtracking collapses: `\d+` must take the maximal digit run (a shorter
run would leave `\s+` facing a digit) and `\s+` the maximal whitespace run
(a shorter run would leave the key's first letter facing whitespace), so a
match is exactly: a non-empty digit run, a non-empty whitespace run, then
the key literal.  Returns the captured integer and the remainder of the
line after the match. -/
def try_match (key : List Char) (s : List Char) : Option (Nat × List Char) :=
  let ds := s.takeWhile Char.isDigit
  if ds.isEmpty then none
  else
    let afterDigits := s.dropWhile Char.isDigit
    let ws := afterDigits.takeWhile Char.isWhitespace
    if ws.isEmpty then none
    else
      let afterWs := afterDigits.dropWhile Char.isWhitespace
      if key.isPrefixOf afterWs then
        some (digits_to_nat ds, afterWs.drop key.length)
      else none

/-- `re.finditer(rf"(\d+)\s+{key}", line)` (src line 666): scan left to
right, at each position attempt a match; on success emit the captured
integer and resume after the match, otherwise advance one character.
Every step consumes at least one character, so fuel equal to the line
length never runs out. -/
def find_matches (key : List Char) : Nat → List Char → List Nat
  | 0, _ => []
  | _ + 1, [] => []
  | fuel + 1, c :: cs =>
    match try_match key (c :: cs) with
    | some (v, rest) => v :: find_matches key fuel rest
    | none => find_matches key fuel cs

/-- Python `needle in haystack` on strings: the needle occurs as a
contiguous substring. -/
def contains_sub (needle : List Char) : List Char → Bool
  | [] => needle.isEmpty
  | c :: cs => needle.isPrefixOf (c :: cs) || contains_sub needle cs

/-- The candidate-line test of src lines 659-664: the line contains one of
the substrings " passed", " failed", " skipped", " error". -/
def is_candidate_line (line : List Char) : Bool :=
  contains_sub " passed".data line || contains_sub " failed".data line
    || contains_sub " skipped".data line || contains_sub " error".data line

/-- pattern_map of src lines 650-656, in insertion order: regex key paired
with the normalized counter label. -/
def pattern_map : List (String × String) :=
  [("passed", "passed"), ("failed", "failed"), ("error", "errors"),
   ("errors", "errors"), ("skipped", "skipped")]

/-- The if/elif chain of src lines 668-675 adding one captured value to the
counter selected by the label; the accumulator is the quadruple
(passed, failed, errors, skipped). -/
def add_value (acc : Nat × Nat × Nat × Nat) (label : String) (value : Nat) :
    Nat × Nat × Nat × Nat :=
  if label = "passed" then (acc.1 + value, acc.2.1, acc.2.2.1, acc.2.2.2)
  else if label = "failed" then (acc.1, acc.2.1 + value, acc.2.2.1, acc.2.2.2)
  else if label = "errors" then (acc.1, acc.2.1, acc.2.2.1 + value, acc.2.2.2)
  else if label = "skipped" then (acc.1, acc.2.1, acc.2.2.1, acc.2.2.2 + value)
  else acc

/-- Processing of one line (src lines 658-675): skip non-candidate lines;
on a candidate line, for each pattern_map entry add every finditer capture
to the labelled counter. -/
def process_line (acc : Nat × Nat × Nat × Nat) (line : List Char) :
    Nat × Nat × Nat × Nat :=
  if is_candidate_line line then
    pattern_map.foldl
      (fun a kv =>
        (find_matches kv.1.data line.length line).foldl
          (fun a2 v => add_value a2 kv.2 v) a)
      acc
  else acc

/-- Python str.splitlines restricted to the terminators that occur here:
splits on "\r\n", "\n" and "\r", and drops a trailing empty segment
("a\n".splitlines() == ["a"], "".splitlines() == []). -/
def splitlines_aux : List Char → List Char → List (List Char)
  | [], acc => if acc.isEmpty then [] else [acc.reverse]
  | '\r' :: '\n' :: rest, acc => acc.reverse :: splitlines_aux rest []
  | '\n' :: rest, acc => acc.reverse :: splitlines_aux rest []
  | '\r' :: rest, acc => acc.reverse :: splitlines_aux rest []
  | c :: rest, acc => splitlines_aux rest (c :: acc)

/-- str.splitlines on a string. -/
def splitlines (s : String) : List (List Char) :=
  splitlines_aux s.data []

/-- PytestGUI._parse_test_summary (src lines 641-683), up to the point
where the four accumulators and their sum are stored into the tests_*
fields: fold process_line over the lines and derive the total. -/
def parse_test_summary (text : String) : SummaryCounts :=
  let acc := (splitlines text).foldl process_line (0, 0, 0, 0)
  { passed := acc.1, failed := acc.2.1, errors := acc.2.2.1,
    skipped := acc.2.2.2,
    total := acc.1 + acc.2.1 + acc.2.2.1 + acc.2.2.2 }

/-! ## History store and session state (src lines 55-106, 691-758, 809-864) -/

/-- One entry of the last-5 runs history: the dict built in
PytestGUI._add_run_to_history (src lines 709-724).  The counts dict holds
the five tests_* fields, modelled by SummaryCounts. -/
structure HistoryEntry where
  summary : String
  output : String
  exit_code : Int
  flag : String
  timestamp : String
  target_type : String
  target_name : String
  counts : SummaryCounts
deriving DecidableEq, Repr

/-- The PytestGUI fields touched by the core logic (src lines 67-91):
target selection, the flag combobox value, the tests_* counters, the run
history, the text widget content (everything inserted since the last
delete) and the status label text. -/
structure AppState where
  selected_path : Option String
  is_directory : Bool
  flag_var : String
  tests_passed : Nat
  tests_failed : Nat
  tests_errors : Nat
  tests_skipped : Nat
  tests_total : Nat
  run_history : List HistoryEntry
  output_content : String
  cursor_text : String
deriving DecidableEq, Repr

/-- POSIX os.path.basename: the part of the path after the last "/"
(empty when the path ends in "/"). -/
def basename (p : String) : String :=
  ((p.splitOn "/").getLast?).getD ""

/-- The OK/ISSUE status of src lines 694-696: "OK" unless the exit code is
nonzero or any test failed or errored. -/
def run_status (exit_code : Int) (tests_failed tests_errors : Nat) : String :=
  if exit_code ≠ 0 ∨ tests_failed > 0 ∨ tests_errors > 0 then "ISSUE" else "OK"

/-- The history update of src lines 726-727: append the entry, then keep
the last five (Python `self.run_history[-5:]`). -/
def record_run (history : List HistoryEntry) (entry : HistoryEntry) :
    List HistoryEntry :=
  let h := history ++ [entry]
  h.drop (h.length - 5)

/-- PytestGUI._add_run_to_history (src lines 691-732): build the summary
line and the entry dict from the current state, append it and keep the
last five.  The wall-clock timestamp is injected; the listbox refresh of
lines 730-732 is presentation and not part of the state modelled here. -/
def add_run_to_history (st : AppState) (timestamp : String) (exit_code : Int)
    (flag : String) (output : String) : AppState :=
  let status := run_status exit_code st.tests_failed st.tests_errors
  let target_type := if st.is_directory then "FOLDER" else "FILE"
  let name0 := st.selected_path.getD "?"
  let name := if basename name0 = "" then name0 else basename name0
  let summary :=
    timestamp ++ " | " ++ status ++ " | code=" ++ toString exit_code
      ++ " | T:" ++ toString st.tests_total ++ " P:" ++ toString st.tests_passed
      ++ " F:" ++ toString st.tests_failed ++ " E:" ++ toString st.tests_errors
      ++ " S:" ++ toString st.tests_skipped ++ " | " ++ target_type ++ ":" ++ name
  let entry : HistoryEntry :=
    { summary := summary, output := output, exit_code := exit_code,
      flag := flag, timestamp := timestamp, target_type := target_type,
      target_name := name,
      counts := { passed := st.tests_passed, failed := st.tests_failed,
                  errors := st.tests_errors, skipped := st.tests_skipped,
                  total := st.tests_total } }
  { st with run_history := record_run st.run_history entry }

/-- The entry-lookup core of PytestGUI._on_history_select (src lines
736-749): given the clicked display index (listbox shows newest at the
top), return the addressed history entry, or none when the history is
empty or the translated index falls out of range. -/
def on_history_select (history : List HistoryEntry) (display_index : Nat) :
    Option HistoryEntry :=
  if history.isEmpty then none
  else
    let history_index : Int := (history.length : Int) - 1 - (display_index : Int)
    if history_index < 0 ∨ (history.length : Int) ≤ history_index then none
    else history.get? history_index.toNat

/-- The banner printed at the start of run_tests (src lines 820-829):
target line, optional flag line, blank line. -/
def boot_banner (target_type selected flag : String) : String :=
  "[BOOT] pytest engaged on " ++ target_type ++ ":\n" ++ selected ++ "\n"
    ++ (if flag ≠ "" ∧ str_lower flag ≠ "normal" then "[FLAG] " ++ flag ++ "\n" else "")
    ++ "\n"

/-- PytestGUI.run_tests (src lines 809-864).  With no target selected the
method only shows a warning box and returns.  Otherwise it clears the
widget, prints the banner, runs pytest, prints the stdout and stderr
blocks, parses the combined output, prints the exit-code line, snapshots
the widget (Text.get("1.0", END): content plus a trailing newline Tk
appends), records the run and sets the status label. -/
def run_tests (st : AppState) (spawn : SubprocessCall → SpawnOutcome)
    (executable timestamp : String) : AppState :=
  match st.selected_path with
  | none => st
  | some selected =>
    let flag := st.flag_var
    let target_type := if st.is_directory then "FOLDER" else "FILE"
    let banner := boot_banner target_type selected flag
    let (stdout, stderr, return_code) :=
      run_pytest spawn executable selected st.is_directory (some flag)
    let content := banner
      ++ (if stdout ≠ "" then "=== PYTEST OUTPUT ===\n" ++ stdout ++ "\n" else "")
      ++ (if stderr ≠ "" then "=== PYTEST ERRORS ===\n" ++ stderr ++ "\n" else "")
    let combined := stdout ++ "\n" ++ stderr
    let counts := parse_test_summary combined
    let content := content ++ "\n[EXIT CODE] " ++ toString return_code ++ "\n"
    let full_output := content ++ "\n"
    let st1 := { st with
      tests_passed := counts.passed, tests_failed := counts.failed,
      tests_errors := counts.errors, tests_skipped := counts.skipped,
      tests_total := counts.total, output_content := content }
    let st2 := add_run_to_history st1 timestamp return_code flag full_output
    let cursor :=
      if counts.failed > 0 ∨ counts.errors > 0 ∨ return_code ≠ 0
      then "> RUN COMPLETE (ISSUES) _" else "> RUN COMPLETE (OK) _"
    { st2 with cursor_text := cursor }

/-- The history snapshot as claim C2 words it, differing from the source
only in the block headers: literal "=== OUTPUT ===" and "=== ERRORS ==="
instead of the source's "=== PYTEST OUTPUT ===" and "=== PYTEST ERRORS ===". -/
def full_output_claimed (target_type selected flag stdout stderr : String)
    (return_code : Int) : String :=
  boot_banner target_type selected flag
    ++ (if stdout ≠ "" then "=== OUTPUT ===\n" ++ stdout ++ "\n" else "")
    ++ (if stderr ≠ "" then "=== ERRORS ===\n" ++ stderr ++ "\n" else "")
    ++ "\n[EXIT CODE] " ++ toString return_code ++ "\n" ++ "\n"

/-! ## Helper lemmas -/

theorem add_value_passed (a : Nat × Nat × Nat × Nat) (v : Nat) :
    add_value a "passed" v = (a.1 + v, a.2.1, a.2.2.1, a.2.2.2) := rfl

theorem add_value_failed (a : Nat × Nat × Nat × Nat) (v : Nat) :
    add_value a "failed" v = (a.1, a.2.1 + v, a.2.2.1, a.2.2.2) := rfl

theorem add_value_errors (a : Nat × Nat × Nat × Nat) (v : Nat) :
    add_value a "errors" v = (a.1, a.2.1, a.2.2.1 + v, a.2.2.2) := rfl

theorem add_value_skipped (a : Nat × Nat × Nat × Nat) (v : Nat) :
    add_value a "skipped" v = (a.1, a.2.1, a.2.2.1, a.2.2.2 + v) := rfl

theorem foldl_add_value_passed (vs : List Nat) :
    ∀ a : Nat × Nat × Nat × Nat,
      vs.foldl (fun x v => add_value x "passed" v) a
        = (a.1 + vs.sum, a.2.1, a.2.2.1, a.2.2.2) := by
  induction vs with
  | nil => intro a; rfl
  | cons v tl ih =>
    intro a
    rw [List.foldl_cons, ih, add_value_passed]
    simp [Nat.add_assoc]

theorem foldl_add_value_failed (vs : List Nat) :
    ∀ a : Nat × Nat × Nat × Nat,
      vs.foldl (fun x v => add_value x "failed" v) a
        = (a.1, a.2.1 + vs.sum, a.2.2.1, a.2.2.2) := by
  induction vs with
  | nil => intro a; rfl
  | cons v tl ih =>
    intro a
    rw [List.foldl_cons, ih, add_value_failed]
    simp [Nat.add_assoc]

theorem foldl_add_value_errors (vs : List Nat) :
    ∀ a : Nat × Nat × Nat × Nat,
      vs.foldl (fun x v => add_value x "errors" v) a
        = (a.1, a.2.1, a.2.2.1 + vs.sum, a.2.2.2) := by
  induction vs with
  | nil => intro a; rfl
  | cons v tl ih =>
    intro a
    rw [List.foldl_cons, ih, add_value_errors]
    simp [Nat.add_assoc]

theorem foldl_add_value_skipped (vs : List Nat) :
    ∀ a : Nat × Nat × Nat × Nat,
      vs.foldl (fun x v => add_value x "skipped" v) a
        = (a.1, a.2.1, a.2.2.1, a.2.2.2 + vs.sum) := by
  induction vs with
  | nil => intro a; rfl
  | cons v tl ih =>
    intro a
    rw [List.foldl_cons, ih, add_value_skipped]
    simp [Nat.add_assoc]

/-- Closed form of one line's processing: each counter receives the sum of
the finditer captures of its own regex key; the errors counter receives
the captures of both the "error" and the "errors" key. -/
theorem process_line_eq (acc : Nat × Nat × Nat × Nat) (line : List Char) :
    process_line acc line =
      if is_candidate_line line then
        (acc.1 + (find_matches "passed".data line.length line).sum,
         acc.2.1 + (find_matches "failed".data line.length line).sum,
         acc.2.2.1 + (find_matches "error".data line.length line).sum
           + (find_matches "errors".data line.length line).sum,
         acc.2.2.2 + (find_matches "skipped".data line.length line).sum)
      else acc := by
  unfold process_line pattern_map
  cases h : is_candidate_line line with
  | false => simp
  | true =>
    simp only [if_true, List.foldl_cons, List.foldl_nil,
      foldl_add_value_passed, foldl_add_value_failed, foldl_add_value_errors,
      foldl_add_value_skipped]

theorem record_run_eq (history : List HistoryEntry) (entry : HistoryEntry) :
    record_run history entry
      = (history ++ [entry]).drop ((history.length + 1) - 5) := by
  unfold record_run
  simp

theorem record_run_getLast (history : List HistoryEntry) (entry : HistoryEntry) :
    (record_run history entry).getLast? = some entry := by
  rw [record_run_eq, List.drop_append_of_le_length (by omega),
    List.getLast?_concat]

theorem record_run_length_le (history : List HistoryEntry) (entry : HistoryEntry) :
    (record_run history entry).length ≤ 5 := by
  rw [record_run_eq]
  simp
  omega

/-- Folding record_run keeps exactly the most recent five of everything
recorded so far. -/
theorem foldl_record_run (es : List HistoryEntry) :
    ∀ h0 : List HistoryEntry, h0.length ≤ 5 →
      es.foldl record_run h0 = (h0 ++ es).drop ((h0.length + es.length) - 5) := by
  induction es with
  | nil =>
    intro h0 hle
    simp [Nat.sub_eq_zero_of_le hle]
  | cons e tl ih =>
    intro h0 hle
    rw [List.foldl_cons, ih _ (record_run_length_le h0 e), record_run_eq,
      ← List.drop_append_of_le_length
        (show (h0.length + 1) - 5 ≤ (h0 ++ [e]).length by simp; omega),
      List.drop_drop]
    simp only [List.length_drop, List.length_append, List.length_cons,
      List.length_nil, List.append_assoc, List.singleton_append]
    congr 1
    omega

/-! ## Claim theorems -/

/-- C1 (counterexample): the claim says every occurrence of
`<integer><whitespace><category-word>` is added exactly once, so
"2 errors in 0.5s" should yield errors == 2.  On the code the "error" key
of pattern_map also matches inside the word "errors", so the occurrence is
counted twice and the parser returns errors == 4. -/
theorem parse_errors_not_counted_once :
    (parse_test_summary "2 errors in 0.5s").errors = 4
      ∧ (parse_test_summary "2 errors in 0.5s").errors ≠ 2 :=
  ⟨by decide, by decide⟩

/-- C1 (amended): on every candidate summary line each counter receives
the sum of the integers captured by its own key's pattern
`<integer><whitespace><key>`, the errors counter receiving the captures of
both the "error" and the "errors" key — so an occurrence "N errors",
matched by both keys, contributes N twice; in particular the single-line
input "2 errors in 0.5s" returns errors == 4. -/
theorem parse_per_key_accumulation :
    (∀ (acc : Nat × Nat × Nat × Nat) (line : List Char),
      process_line acc line =
        if is_candidate_line line then
          (acc.1 + (find_matches "passed".data line.length line).sum,
           acc.2.1 + (find_matches "failed".data line.length line).sum,
           acc.2.2.1 + (find_matches "error".data line.length line).sum
             + (find_matches "errors".data line.length line).sum,
           acc.2.2.2 + (find_matches "skipped".data line.length line).sum)
        else acc)
    ∧ (parse_test_summary "2 errors in 0.5s").errors = 4 :=
  ⟨process_line_eq, by decide⟩

/-- C3: the parser maps "3 passed, 1 failed, 2 skipped in 0.12s" to
counts (3, 1, 0, 2, total 6), "5 passed in 0.02s" to (5, 0, 0, 0, total 5)
and "no tests ran" to all-zero counts. -/
theorem parse_concrete_scenarios :
    parse_test_summary "3 passed, 1 failed, 2 skipped in 0.12s" = ⟨3, 1, 0, 2, 6⟩
    ∧ parse_test_summary "5 passed in 0.02s" = ⟨5, 0, 0, 0, 5⟩
    ∧ parse_test_summary "no tests ran" = ⟨0, 0, 0, 0, 0⟩ :=
  ⟨by decide, by decide, by decide⟩

/-- C8: the parser is a total function of the input string (it is defined
for every string and cannot fail), and the total it returns is by
construction the sum of the four category counters. -/
theorem parse_total_invariant (text : String) :
    (parse_test_summary text).total =
      (parse_test_summary text).passed + (parse_test_summary text).failed
        + (parse_test_summary text).errors + (parse_test_summary text).skipped :=
  rfl

/-- C4: a run is classified "OK" exactly when the exit code is 0 and the
failed and errors counters are both 0, and "ISSUE" otherwise — in
particular exit code 1 always gives "ISSUE"; and the status used when the
history entry is created is recomputable from the entry's stored exit_code
and counts alone. -/
theorem run_status_classification (exit_code : Int) (f e : Nat) :
    (run_status exit_code f e = "OK" ↔ exit_code = 0 ∧ f = 0 ∧ e = 0)
    ∧ run_status 1 f e = "ISSUE"
    ∧ ∀ (st : AppState) (ts flag out : String),
        ((add_run_to_history st ts exit_code flag out).run_history.getLast?).map
            (fun en => run_status en.exit_code en.counts.failed en.counts.errors)
          = some (run_status exit_code st.tests_failed st.tests_errors) := by
  refine ⟨?_, ?_, ?_⟩
  · unfold run_status
    by_cases h : exit_code ≠ 0 ∨ f > 0 ∨ e > 0
    · rw [if_pos h]
      constructor
      · intro hok
        exact absurd hok (by decide)
      · intro hc
        exact absurd h (by omega)
    · rw [if_neg h]
      push_neg at h
      constructor
      · intro _
        omega
      · intro _
        rfl
  · unfold run_status
    rw [if_pos (Or.inl (by omega))]
  · intro st ts flag out
    simp only [add_run_to_history, record_run_getLast, Option.map_some']

/-- C5: whenever the attempt to spawn or run the external process raises,
run_pytest returns the synthetic result with empty stdout, a non-empty
descriptive stderr and exit code 1; no exception reaches the caller (the
embedding is a total function into result triples). -/
theorem run_pytest_spawn_failure (spawn : SubprocessCall → SpawnOutcome)
    (executable target_path : String) (is_dir : Bool) (flag : Option String)
    (exc : String)
    (h : spawn (pytest_invocation executable flag target_path)
      = SpawnOutcome.raised exc) :
    run_pytest spawn executable target_path is_dir flag
        = ("", "Unexpected error running pytest: " ++ exc, 1)
      ∧ (run_pytest spawn executable target_path is_dir flag).2.1 ≠ "" := by
  unfold run_pytest
  rw [h]
  refine ⟨rfl, ?_⟩
  intro hc
  have hdata := congrArg String.data hc
  rw [String.data_append] at hdata
  simp at hdata

/-- C5 witness: a spawn that raises "No such file or directory" yields the
synthetic error result. -/
theorem run_pytest_spawn_failure_witness :
    run_pytest (fun _ => SpawnOutcome.raised "No such file or directory")
        "python3" "tests" false (some "Normal")
      = ("", "Unexpected error running pytest: No such file or directory", 1) :=
  (run_pytest_spawn_failure (fun _ => SpawnOutcome.raised "No such file or directory")
    "python3" "tests" false (some "Normal") "No such file or directory" rfl).1

/-- C6: after more than five record operations the history holds exactly
the five most recently recorded entries, in insertion order. -/
theorem history_bounded_last_five (entries : List HistoryEntry)
    (h : entries.length > 5) :
    entries.foldl record_run [] = entries.drop (entries.length - 5)
      ∧ (entries.foldl record_run []).length = 5 := by
  have he := foldl_record_run entries [] (by simp)
  simp only [List.nil_append, List.length_nil, Nat.zero_add] at he
  refine ⟨he, ?_⟩
  rw [he, List.length_drop]
  omega

/-- A minimal history entry tagged by a run number, for exercising the
history bound. -/
def sample_entry (n : Nat) : HistoryEntry :=
  { summary := "run" ++ toString n, output := "", exit_code := 0,
    flag := "Normal", timestamp := "", target_type := "FILE",
    target_name := "t", counts := ⟨0, 0, 0, 0, 0⟩ }

/-- C6 witness: recording run1..run6 leaves exactly [run2, ..., run6]. -/
theorem history_bounded_last_five_witness :
    [sample_entry 1, sample_entry 2, sample_entry 3, sample_entry 4,
        sample_entry 5, sample_entry 6].foldl record_run []
      = [sample_entry 2, sample_entry 3, sample_entry 4, sample_entry 5,
        sample_entry 6] := by
  have h := (history_bounded_last_five
    [sample_entry 1, sample_entry 2, sample_entry 3, sample_entry 4,
      sample_entry 5, sample_entry 6] (by decide)).1
  simpa using h

/-- C7: the history lookup translates a display-order index (newest first)
into the newest-last storage order — it returns exactly what indexing the
reversed history would — and yields none (never a fault) for every
out-of-range index, including every index on an empty history. -/
theorem on_history_select_lookup (history : List HistoryEntry)
    (display_index : Nat) :
    on_history_select history display_index
        = history.reverse.get? display_index
      ∧ (history.length ≤ display_index →
          on_history_select history display_index = none) := by
  have hmain : on_history_select history display_index
      = history.reverse.get? display_index := by
    unfold on_history_select
    cases history with
    | nil => simp
    | cons a tl =>
      rw [if_neg (by simp)]
      simp only [List.length_cons]
      by_cases hd : display_index < tl.length + 1
      · rw [if_neg (by omega)]
        rw [show ((((tl.length + 1 : Nat) : Int) - 1 - (display_index : Int)).toNat)
            = tl.length + 1 - 1 - display_index by omega]
        have hrev := (List.get?_reverse
          (show display_index < (a :: tl).length by simp; omega)).symm
        simpa only [List.length_cons] using hrev
      · rw [if_pos (by omega)]
        symm
        rw [List.get?_eq_none]
        simp only [List.length_reverse, List.length_cons]
        omega
  refine ⟨hmain, fun hout => ?_⟩
  rw [hmain, List.get?_eq_none]
  simpa using hout

/-- Two concrete history entries for exercising the display-order lookup. -/
def pick_entry (n : Nat) : HistoryEntry :=
  { summary := "pick" ++ toString n, output := "o" ++ toString n,
    exit_code := 0, flag := "-q", timestamp := "", target_type := "FILE",
    target_name := "t", counts := ⟨1, 0, 0, 0, 1⟩ }

/-- C7 witness: with two entries stored newest-last, display index 0
returns the newest entry and display index 5 returns none. -/
theorem on_history_select_lookup_witness :
    on_history_select [pick_entry 1, pick_entry 2] 0 = some (pick_entry 2)
    ∧ on_history_select [pick_entry 1, pick_entry 2] 5 = none := by
  constructor
  · rw [(on_history_select_lookup [pick_entry 1, pick_entry 2] 0).1]
    rfl
  · exact (on_history_select_lookup [pick_entry 1, pick_entry 2] 5).2 (by decide)

/-- C4 witness: exit code 0 with clean counters classifies "OK"; exit
code 1 classifies "ISSUE" even with all counters zero. -/
theorem run_status_classification_witness :
    run_status 0 0 0 = "OK" ∧ run_status 1 0 0 = "ISSUE" :=
  ⟨(run_status_classification 0 0 0).1.mpr ⟨rfl, rfl, rfl⟩,
   (run_status_classification 1 0 0).2.1⟩

/-- C9: the subprocess invocation is the literal argument vector
[interpreter, "-m", "pytest"], then the flag exactly when it is present
and not the sentinel, then the target path, in that order; it is executed
with shell interpretation off and stdout and stderr captured separately
as text. -/
theorem pytest_invocation_argv (executable target_path : String)
    (flag : Option String) :
    (pytest_invocation executable flag target_path).args
        = [executable, "-m", "pytest"]
          ++ (match flag with
              | some f => if f ≠ "" ∧ str_lower f ≠ "normal" then [f] else []
              | none => [])
          ++ [target_path]
      ∧ (pytest_invocation executable flag target_path).shell = false
      ∧ (pytest_invocation executable flag target_path).capture_output = true
      ∧ (pytest_invocation executable flag target_path).text = true := by
  refine ⟨?_, rfl, rfl, rfl⟩
  simp only [pytest_invocation, pytest_cmd]
  cases flag with
  | none => rfl
  | some f =>
    by_cases h : f ≠ "" ∧ str_lower f ≠ "normal"
    · simp [h]
    · simp [h]

/-- C10: the sentinel check is case-insensitive — any flag whose lowercase
form is "normal", and an empty or absent flag, is omitted from the
constructed command; every other non-empty flag is appended verbatim. -/
theorem pytest_cmd_flag_sentinel (executable target_path f : String) :
    (str_lower f = "normal" → pytest_cmd executable (some f) target_path
        = [executable, "-m", "pytest", target_path])
    ∧ (f = "" → pytest_cmd executable (some f) target_path
        = [executable, "-m", "pytest", target_path])
    ∧ pytest_cmd executable none target_path
        = [executable, "-m", "pytest", target_path]
    ∧ (f ≠ "" → str_lower f ≠ "normal" → pytest_cmd executable (some f) target_path
        = [executable, "-m", "pytest", f, target_path]) := by
  refine ⟨?_, ?_, rfl, ?_⟩
  · intro h
    simp only [pytest_cmd]
    rw [if_neg (fun hc => hc.2 h)]
    rfl
  · intro h
    simp only [pytest_cmd]
    rw [if_neg (fun hc => hc.1 h)]
    rfl
  · intro h1 h2
    simp only [pytest_cmd]
    rw [if_pos ⟨h1, h2⟩]
    rfl

/-- C10 witness: "NORMAL" is dropped (case-insensitive sentinel) while
"-q" is appended verbatim between the runner invocation and the target. -/
theorem pytest_cmd_flag_sentinel_witness :
    pytest_cmd "python3" (some "NORMAL") "tests"
        = ["python3", "-m", "pytest", "tests"]
    ∧ pytest_cmd "python3" (some "-q") "tests"
        = ["python3", "-m", "pytest", "-q", "tests"] :=
  ⟨(pytest_cmd_flag_sentinel "python3" "tests" "NORMAL").1 (by decide),
   (pytest_cmd_flag_sentinel "python3" "tests" "-q").2.2.2 (by decide) (by decide)⟩

/-- A concrete session state for exercising run_tests. -/
def demo_state : AppState :=
  { selected_path := some "pkg/tests.py", is_directory := false,
    flag_var := "Normal", tests_passed := 0, tests_failed := 0,
    tests_errors := 0, tests_skipped := 0, tests_total := 0,
    run_history := [], output_content := "", cursor_text := "> READY _" }

/-- A spawn behavior where the child completes with one passing test. -/
def demo_spawn : SubprocessCall → SpawnOutcome :=
  fun _ => SpawnOutcome.completed "1 passed in 0.01s" "" 0

/-- C2 (counterexample): the claim names the literal block headers
"=== OUTPUT ===" and "=== ERRORS ===", but the code writes
"=== PYTEST OUTPUT ===" and "=== PYTEST ERRORS ===": on a completed run
with non-empty stdout the stored snapshot differs from the claimed string
and does not contain "=== OUTPUT ===" at all. -/
theorem history_snapshot_header_cex :
    ((run_tests demo_state demo_spawn "python3" "12:00:00").run_history.map
        HistoryEntry.output)
      ≠ [full_output_claimed "FILE" "pkg/tests.py" "Normal"
          "1 passed in 0.01s" "" 0]
    ∧ ((run_tests demo_state demo_spawn "python3" "12:00:00").run_history.map
        (fun en => contains_sub "=== OUTPUT ===".data en.output.data))
      = [false] :=
  ⟨by decide, by decide⟩

/-- C2 (amended): the snapshot stored with each completed run is, in this
fixed order: the boot/flag banner, the header "=== PYTEST OUTPUT ===" with
stdout when stdout is non-empty, the header "=== PYTEST ERRORS ===" with
stderr when stderr is non-empty, the exit-code line, and the trailing
newline the text widget appends to its content. -/
theorem history_snapshot_structure (st : AppState)
    (spawn : SubprocessCall → SpawnOutcome)
    (executable timestamp selected out err : String) (code : Int)
    (hsel : st.selected_path = some selected)
    (hspawn : spawn (pytest_invocation executable (some st.flag_var) selected)
      = SpawnOutcome.completed out err code) :
    ((run_tests st spawn executable timestamp).run_history.getLast?).map
        HistoryEntry.output
      = some (boot_banner (if st.is_directory then "FOLDER" else "FILE")
            selected st.flag_var
          ++ (if out ≠ "" then "=== PYTEST OUTPUT ===\n" ++ out ++ "\n" else "")
          ++ (if err ≠ "" then "=== PYTEST ERRORS ===\n" ++ err ++ "\n" else "")
          ++ "\n[EXIT CODE] " ++ toString code ++ "\n" ++ "\n") := by
  simp only [run_tests, hsel, run_pytest, hspawn, add_run_to_history,
    record_run_getLast, Option.map_some']

/-- C2 witness: on the demo run the stored snapshot is the banner, the
"=== PYTEST OUTPUT ===" block, the exit-code line and the trailing widget
newline. -/
theorem history_snapshot_structure_witness :
    ((run_tests demo_state demo_spawn "python3" "12:00:00").run_history.getLast?).map
        HistoryEntry.output
      = some "[BOOT] pytest engaged on FILE:\npkg/tests.py\n\n=== PYTEST OUTPUT ===\n1 passed in 0.01s\n\n[EXIT CODE] 0\n\n" := by
  have h := history_snapshot_structure demo_state demo_spawn "python3" "12:00:00"
    "pkg/tests.py" "1 passed in 0.01s" "" 0 rfl rfl
  rw [h]
  rfl
